import Mathlib

/-!
Verification of the drawdown computation and plotting control flow of the
cryptoquantengine visualization scripts.

Embedded source files:
* `src/hftengine/py/util.py` — `plot_equity_dd` (cumulative-maximum drawdown
  computation and chart description) and `plot_equity`.
* `src/hftengine/core/recorder/plot_recorder.py` — the CSV equity/position
  plotter script (argument handling, CSV loading, timestamp conversion,
  plotting sequence).

Numeric values are modelled as rationals (`ℚ`): the Python code operates on
numpy/pandas floats, but every claim checked here concerns exact comparisons,
signs and equalities that hold identically in exact arithmetic on the inputs
considered.  The one float-specific behavior — division by a zero peak
producing a non-finite value — is modelled explicitly by a checked division
(`divChecked`) returning `none` on a zero divisor.
-/

/-- `np.maximum.accumulate` on the tail of a list, carrying the running
maximum `m` of the elements already consumed. -/
def cumMaxAux (m : ℚ) : List ℚ → List ℚ
  | [] => []
  | x :: xs => max m x :: cumMaxAux (max m x) xs

/-- `peak = np.maximum.accumulate(equity)` from `plot_equity_dd`
(util.py line 6): the running (cumulative) maximum of the equity sequence. -/
def peak : List ℚ → List ℚ
  | [] => []
  | e :: es => e :: cumMaxAux e es

/-- `drawdown = (equity - peak)` from `plot_equity_dd` (util.py line 7):
elementwise difference of equity and its running peak. -/
def drawdown (equity : List ℚ) : List ℚ :=
  List.zipWith (fun e p => e - p) equity (peak equity)

/-- `drawdown_pct = drawdown / peak * 100` from `plot_equity_dd`
(util.py line 8): elementwise percent drawdown.  Rational division by zero
yields `0` here; the zero-divisor case is tracked separately by
`drawdown_pct_checked`. -/
def drawdown_pct (equity : List ℚ) : List ℚ :=
  List.zipWith (fun d p => d / p * 100) (drawdown equity) (peak equity)

/-- Division modelled as fallible, reflecting that a float division by zero
does not return a finite number: `none` when the divisor is zero. -/
def divChecked (a b : ℚ) : Option ℚ :=
  if b = 0 then none else some (a / b)

/-- Collects a list of optional values; `none` as soon as one entry is
`none`. -/
def optionList : List (Option ℚ) → Option (List ℚ)
  | [] => some []
  | none :: _ => none
  | some x :: rest => (optionList rest).map (fun l => x :: l)

/-- The `drawdown / peak * 100` computation of util.py line 8 with the
division tracked: returns `none` exactly when some running-peak divisor is
zero, i.e. when the unguarded float computation would produce a non-finite
value. -/
def drawdown_pct_checked (equity : List ℚ) : Option (List ℚ) :=
  (optionList
    (List.zipWith (fun d p => divChecked d p) (drawdown equity) (peak equity))).map
    (fun l => l.map (fun q => q * 100))

/-- Rounding to two decimal places, used to state the spec's "2 d.p."
scenario values. -/
def round2 (q : ℚ) : ℚ :=
  ((round (q * 100) : ℤ) : ℚ) / 100

/-- The triple of series computed by lines 6–8 of `plot_equity_dd`: running
peak, drawdown, drawdown percent.  This is the "drawdown computation" as a
function of the equity input. -/
def ddCompute (equity : List ℚ) : List ℚ × List ℚ × List ℚ :=
  (peak equity, drawdown equity, drawdown_pct equity)

section Lemmas

theorem cumMaxAux_length (m : ℚ) (l : List ℚ) : (cumMaxAux m l).length = l.length := by
  induction l generalizing m with
  | nil => rfl
  | cons x xs ih => simp [cumMaxAux, ih]

theorem peak_length (E : List ℚ) : (peak E).length = E.length := by
  cases E with
  | nil => rfl
  | cons e es => simp [peak, cumMaxAux_length]

theorem drawdown_length (E : List ℚ) : (drawdown E).length = E.length := by
  simp [drawdown, peak_length]

theorem drawdown_pct_length (E : List ℚ) : (drawdown_pct E).length = E.length := by
  simp [drawdown_pct, drawdown_length, peak_length]

/-- Every entry of `cumMaxAux m l` dominates the carried maximum `m`. -/
theorem cumMaxAux_ge_carry (m : ℚ) (l : List ℚ) (i : ℕ) (hi : i < l.length) :
    m ≤ (cumMaxAux m l).getD i 0 := by
  induction l generalizing m i with
  | nil => simp at hi
  | cons x xs ih =>
    cases i with
    | zero => simp [cumMaxAux]
    | succ j =>
      simp only [cumMaxAux, List.getD_cons_succ]
      exact le_trans (le_max_left m x) (ih (max m x) j (by simpa using hi))

/-- Every entry of `cumMaxAux m l` dominates the corresponding entry of `l`. -/
theorem cumMaxAux_ge_elem (m : ℚ) (l : List ℚ) (i : ℕ) (hi : i < l.length) :
    l.getD i 0 ≤ (cumMaxAux m l).getD i 0 := by
  induction l generalizing m i with
  | nil => simp at hi
  | cons x xs ih =>
    cases i with
    | zero => simp [cumMaxAux]
    | succ j =>
      simp only [cumMaxAux, List.getD_cons_succ]
      exact ih (max m x) j (by simpa using hi)

/-- Adjacent entries of `cumMaxAux` are non-decreasing. -/
theorem cumMaxAux_mono_adj (m : ℚ) (l : List ℚ) (i : ℕ) (hi : i + 1 < l.length) :
    (cumMaxAux m l).getD i 0 ≤ (cumMaxAux m l).getD (i + 1) 0 := by
  induction l generalizing m i with
  | nil => simp at hi
  | cons x xs ih =>
    cases i with
    | zero =>
      simp only [cumMaxAux, List.getD_cons_zero, List.getD_cons_succ]
      exact cumMaxAux_ge_carry (max m x) xs 0 (by simpa using hi)
    | succ j =>
      simp only [cumMaxAux, List.getD_cons_succ]
      exact ih (max m x) j (by simpa using hi)

/-- The running peak is monotone between any two in-range indices. -/
theorem cumMaxAux_mono (m : ℚ) (l : List ℚ) (i j : ℕ) (hij : i ≤ j)
    (hj : j < l.length) :
    (cumMaxAux m l).getD i 0 ≤ (cumMaxAux m l).getD j 0 := by
  induction j with
  | zero =>
    have : i = 0 := Nat.le_zero.mp hij
    simp [this]
  | succ k ih =>
    rcases Nat.lt_or_ge i (k + 1) with h | h
    · exact le_trans (ih (Nat.lt_succ_iff.mp h) (Nat.lt_of_succ_lt hj))
        (cumMaxAux_mono_adj m l k hj)
    · have : i = k + 1 := Nat.le_antisymm hij h
      simp [this]

/-- `P[i] ≥ E[i]`: the running peak dominates the equity pointwise. -/
theorem peak_ge (E : List ℚ) (i : ℕ) (hi : i < E.length) :
    E.getD i 0 ≤ (peak E).getD i 0 := by
  cases E with
  | nil => simp at hi
  | cons e es =>
    cases i with
    | zero => simp [peak]
    | succ j =>
      simp only [peak, List.getD_cons_succ]
      exact cumMaxAux_ge_elem e es j (by simpa using hi)

/-- `P[0] = E[0]` for a non-empty equity sequence. -/
theorem peak_zero (E : List ℚ) (h : 0 < E.length) :
    (peak E).getD 0 0 = E.getD 0 0 := by
  cases E with
  | nil => simp at h
  | cons e es => simp [peak]

/-- The running peak is non-decreasing. -/
theorem peak_mono (E : List ℚ) (i j : ℕ) (hij : i ≤ j) (hj : j < E.length) :
    (peak E).getD i 0 ≤ (peak E).getD j 0 := by
  cases E with
  | nil => simp at hj
  | cons e es =>
    cases j with
    | zero =>
      have : i = 0 := Nat.le_zero.mp hij
      simp [this]
    | succ k =>
      cases i with
      | zero =>
        simp only [peak, List.getD_cons_zero, List.getD_cons_succ]
        exact cumMaxAux_ge_carry e es k (by simpa using hj)
      | succ i' =>
        simp only [peak, List.getD_cons_succ]
        exact cumMaxAux_mono e es i' k (Nat.succ_le_succ_iff.mp hij)
          (by simpa using hj)

/-- Pointwise value of the drawdown series. -/
theorem drawdown_getD (E : List ℚ) (i : ℕ) (hi : i < E.length) :
    (drawdown E).getD i 0 = E.getD i 0 - (peak E).getD i 0 := by
  have hp : i < (peak E).length := by rw [peak_length]; exact hi
  have hd : i < (drawdown E).length := by rw [drawdown_length]; exact hi
  rw [List.getD_eq_getElem _ _ hd]
  simp only [drawdown, List.getElem_zipWith]
  rw [List.getD_eq_getElem _ _ hi, List.getD_eq_getElem _ _ hp]

/-- Pointwise value of the drawdown-percent series. -/
theorem drawdown_pct_getD (E : List ℚ) (i : ℕ) (hi : i < E.length) :
    (drawdown_pct E).getD i 0 =
      (E.getD i 0 - (peak E).getD i 0) / (peak E).getD i 0 * 100 := by
  have hp : i < (peak E).length := by rw [peak_length]; exact hi
  have hd : i < (drawdown E).length := by rw [drawdown_length]; exact hi
  have hdp : i < (drawdown_pct E).length := by rw [drawdown_pct_length]; exact hi
  rw [List.getD_eq_getElem _ _ hdp]
  simp only [drawdown_pct, List.getElem_zipWith]
  rw [← List.getD_eq_getElem (drawdown E) 0 hd, ← List.getD_eq_getElem (peak E) 0 hp,
    drawdown_getD E i hi]

end Lemmas

/-!
### Chart description for `plot_equity_dd` (util.py lines 5–35)

The function's rendering calls are embedded as a record describing the figure
it builds: the series handed to each drawing call, the axis labels, the title,
and the scale/limit options.  The `xlabel`, `ylabel` and `title` parameters of
the Python function are accepted but never used by its body, which is
reflected faithfully below.
-/

/-- The figure built by `plot_equity_dd`: one call at a time in source order.
`ddWhere` is the `where=(drawdown_pct < 0)` mask of the second
`fill_between`. -/
structure DDRender where
  fillX : List ℚ
  fillY : List ℚ
  lineX : List ℚ
  lineY : List ℚ
  lineLabel : String
  ddX : List ℚ
  ddY : List ℚ
  ddWhere : List Bool
  ddLabel : String
  ax1Ylabel : String
  ax2Ylabel : String
  figTitle : String
  grid : Bool
  logScale : Bool
  ylimBottom : Option ℚ
  shownFig : Bool
deriving DecidableEq, Repr

/-- `plot_equity_dd(time, equity, xlabel, ylabel, title, y_lim=0.0, log=False)`
from util.py.  `if y_lim:` is Python truthiness: the lower y-limit is applied
exactly when `y_lim ≠ 0`.  The y-labels and the title are the fixed strings
set by the body; the `xlabel`/`ylabel`/`title` parameters are unused in the
source. -/
def plot_equity_dd (time equity : List ℚ) (xlabel ylabel title : String)
    (y_lim : ℚ) (log : Bool) : DDRender :=
  let ddp := drawdown_pct equity
  { fillX := time
    fillY := equity
    lineX := time
    lineY := equity
    lineLabel := "Equity"
    ddX := time
    ddY := ddp
    ddWhere := ddp.map (fun v => decide (v < 0))
    ddLabel := "Drawdown (%)"
    ax1Ylabel := "Equity"
    ax2Ylabel := "Drawdown (%)"
    figTitle := "Equity Curve with Drawdown (%) on Right Axis"
    grid := true
    logScale := log
    ylimBottom := if y_lim = 0 then none else some y_lim
    shownFig := true }

/-!
### `plot_equity` (util.py lines 37–56)

Modelled as an effect trace: the sequence of plotting calls actually reached,
paired with the error (if any) that aborts the run.  matplotlib's
`plt.plot(x, y)` raises a `ValueError` when `x` and `y` differ in first
dimension; that library behavior is embedded as the `lengthMismatch` error,
which aborts the call before any later call (in particular `plt.show`) runs.
-/

/-- matplotlib-level effects performed by `plot_equity`. -/
inductive PEff where
  | figure : PEff
  | plotLine : List ℚ → List ℚ → String → PEff
  | setXlabel : String → PEff
  | setYlabel : String → PEff
  | setTitle : String → PEff
  | setLogScale : PEff
  | gridOn : PEff
  | minorticksOn : PEff
  | legend : PEff
  | tightLayout : PEff
  | showFig : PEff
deriving DecidableEq, Repr

/-- Errors aborting `plot_equity`. -/
inductive PErr where
  | lengthMismatch : ℕ → ℕ → PErr
deriving DecidableEq, Repr

/-- `plot_equity(x, y, xlabel="x", ylabel="y", title="title", log=False)` from
util.py: figure, plot, labels, title, optional log scale, grids, minor ticks,
legend, tight layout, show.  The `plt.plot` call fails with a
length-mismatch `ValueError` when `len(x) ≠ len(y)`, ending the trace
there. -/
def plot_equity (x y : List ℚ) (xlabel ylabel title : String) (log : Bool) :
    List PEff × Option PErr :=
  if x.length = y.length then
    ([PEff.figure, PEff.plotLine x y "Equity", PEff.setXlabel xlabel,
      PEff.setYlabel ylabel, PEff.setTitle title]
      ++ (if log then [PEff.setLogScale] else [])
      ++ [PEff.gridOn, PEff.gridOn, PEff.minorticksOn, PEff.legend,
        PEff.tightLayout, PEff.showFig], none)
  else
    ([PEff.figure], some (PErr.lengthMismatch x.length y.length))

/-!
### The CSV equity/position plotter (plot_recorder.py)

The module-level script is embedded as a function of its environment: whether
the interpreter version check passes, which required packages are missing,
the command line `argv` (including the program name at index 0), and a file
system mapping names to CSV data frames.  It returns the trace of observable
effects together with the error (if any) that terminated the run.

A data frame is an association list from column names to columns.  A cell is
either a raw number (as read from the CSV) or a datetime value produced by
`pd.to_datetime(·, unit='us')`; the conversion wraps the microsecond count in
the datetime constructor.  A missing column access raises pandas' key error,
modelled as `missingColumn`.
-/

/-- A cell value: a raw number from the CSV, or its datetime conversion. -/
inductive Val where
  | num : ℚ → Val
  | dt : ℚ → Val
deriving DecidableEq, Repr

/-- `pd.to_datetime(·, unit='us')` on one cell: reinterprets the microsecond
count as a calendar instant. -/
def to_datetime : Val → Val
  | Val.num q => Val.dt q
  | Val.dt q => Val.dt q

/-- A loaded CSV: association list from column name to column data. -/
def Frame : Type := List (String × List Val)

/-- `df[c]` read access: the first column named `c`, if any. -/
def getCol : Frame → String → Option (List Val)
  | [], _ => none
  | (c', v) :: rest, c => if c' = c then some v else getCol rest c

/-- `df[c] = v` write access: replaces the first column named `c`, appending
a new column when absent. -/
def setCol : Frame → String → List Val → Frame
  | [], c, v => [(c, v)]
  | (c', v') :: rest, c, v =>
    if c' = c then (c, v) :: rest else (c', v') :: setCol rest c v

/-- Observable effects of the plotter script. -/
inductive REff where
  | print : String → REff
  | readCsv : String → REff
  | writeFile : String → REff
  | figure : REff
  | plotLine : ℕ → List Val → List Val → String → REff
  | suptitle : String → REff
  | showFig : REff
deriving DecidableEq, Repr

/-- Errors terminating the plotter script. -/
inductive RErr where
  | badVersion : RErr
  | missingDeps : RErr
  | usage : RErr
  | fileNotFound : String → RErr
  | missingColumn : String → RErr
deriving DecidableEq, Repr

/-- Exit status of the script: `0` on success, nonzero when any error
terminated it (`sys.exit(1)` for the proactive checks, an uncaught exception
otherwise). -/
def exitCode : Option RErr → ℕ
  | none => 0
  | some _ => 1

/-- The usage line printed by plot_recorder.py. -/
def usageMsg : String := "Usage: python plot_recorder.py <csv_filename> <asset_id>"

/-- One `ax.plot(df[xc], df[yc])` call: appends the plot effect when both
columns exist, otherwise stops with the pandas key error for the first
missing column (columns are evaluated left to right). -/
def plotStep (df : Frame) (panel : ℕ) (xc yc : String) (label : String)
    (tr : List REff) (k : List REff → List REff × Option RErr) :
    List REff × Option RErr :=
  match getCol df xc with
  | none => (tr, some (RErr.missingColumn xc))
  | some xv =>
    match getCol df yc with
    | none => (tr, some (RErr.missingColumn yc))
    | some yv => k (tr ++ [REff.plotLine panel xv yv label])

theorem getCol_setCol_self (df : Frame) (c : String) (v : List Val) :
    getCol (setCol df c v) c = some v := by
  induction df with
  | nil => simp [setCol, getCol]
  | cons p rest ih =>
    obtain ⟨c', v'⟩ := p
    by_cases h : c' = c
    · simp [setCol, getCol, h]
    · simp [setCol, getCol, h, ih]

theorem getCol_setCol_ne (df : Frame) (c c' : String) (v : List Val)
    (h : c ≠ c') : getCol (setCol df c v) c' = getCol df c' := by
  induction df with
  | nil => simp [setCol, getCol, h]
  | cons p rest ih =>
    obtain ⟨c₀, v₀⟩ := p
    by_cases h0 : c₀ = c
    · subst h0
      simp [setCol, getCol, h]
    · simp [setCol, getCol, h0, ih]

/-- The module-level script of plot_recorder.py, in source order: version
check, dependency check, argument-count check, CSV load, timestamp
conversion, four plot calls (equity, mid price, position, mid price),
suptitle with the asset id, show. -/
def runPlotRecorder (pyVersionOk : Bool) (missingPkgs : List String)
    (argv : List String) (fs : String → Option Frame) :
    List REff × Option RErr :=
  if pyVersionOk = false then
    ([REff.print "Python 3.7 or higher is required."], some RErr.badVersion)
  else if missingPkgs.isEmpty = false then
    ([REff.print ("Missing required packages: " ++ String.intercalate ", " missingPkgs),
      REff.print ("Install them with: pip install " ++ String.intercalate " " missingPkgs)],
      some RErr.missingDeps)
  else if argv.length < 3 then
    ([REff.print usageMsg], some RErr.usage)
  else
    let csv_filename := argv.getD 1 ""
    let asset_id := argv.getD 2 ""
    let tr0 := [REff.readCsv csv_filename]
    match fs csv_filename with
    | none => (tr0, some (RErr.fileNotFound csv_filename))
    | some df0 =>
      match getCol df0 "timestamp" with
      | none => (tr0, some (RErr.missingColumn "timestamp"))
      | some ts =>
        let df := setCol df0 "timestamp" (ts.map to_datetime)
        let tr1 := tr0 ++ [REff.figure]
        plotStep df 1 "timestamp" "equity" "Equity" tr1 (fun tr2 =>
        plotStep df 1 "timestamp" "mid_price" "Price" tr2 (fun tr3 =>
        plotStep df 2 "timestamp" "position" "Position" tr3 (fun tr4 =>
        plotStep df 2 "timestamp" "mid_price" "Price" tr4 (fun tr5 =>
          (tr5 ++ [REff.suptitle ("Asset " ++ asset_id ++ " Equity and Position Over Time"),
            REff.showFig], none)))))

/-!
### Claim theorems
-/

/-- Claim C1, counterexample: on `E = [-10, -20]` the running peak is
negative, and the code computes `D%[1] = (-10)/(-10)*100 = 100 > 0`, so the
claim "`D%[i] ≤ 0` for all i" fails as stated over all equity sequences. -/
theorem C1_counterexample :
    ¬ ((drawdown_pct [(-10 : ℚ), -20]).getD 1 0 ≤ 0) := by
  norm_num [drawdown_pct, drawdown, peak, cumMaxAux]

/-- Claim C1 (amended): for every equity sequence whose running peak is
positive at every index, `D%[i] ≤ 0` for all in-range i, and `D%[i] = 0`
exactly when `E[i] = P[i]`. -/
theorem C1_drawdown_pct_spec (E : List ℚ)
    (hpos : ∀ i, i < E.length → 0 < (peak E).getD i 0)
    (i : ℕ) (hi : i < E.length) :
    (drawdown_pct E).getD i 0 ≤ 0 ∧
      ((drawdown_pct E).getD i 0 = 0 ↔ E.getD i 0 = (peak E).getD i 0) := by
  have hp : 0 < (peak E).getD i 0 := hpos i hi
  have he : E.getD i 0 ≤ (peak E).getD i 0 := peak_ge E i hi
  rw [drawdown_pct_getD E i hi]
  constructor
  · have hdiv : (E.getD i 0 - (peak E).getD i 0) / (peak E).getD i 0 ≤ 0 :=
      div_nonpos_of_nonpos_of_nonneg (by linarith) hp.le
    nlinarith
  · have hpne : (peak E).getD i 0 ≠ 0 := ne_of_gt hp
    rw [mul_eq_zero, div_eq_zero_iff]
    constructor
    · rintro ((h1 | h2) | h3)
      · exact sub_eq_zero.mp h1
      · exact absurd h2 hpne
      · exact absurd h3 (by norm_num)
    · intro hEq
      exact Or.inl (Or.inl (by rw [hEq, sub_self]))

theorem C1_drawdown_pct_spec_witness :
    (drawdown_pct [(100 : ℚ), 90]).getD 1 0 ≤ 0 ∧
      ((drawdown_pct [(100 : ℚ), 90]).getD 1 0 = 0 ↔
        ([(100 : ℚ), 90]).getD 1 0 = (peak [(100 : ℚ), 90]).getD 1 0) :=
  C1_drawdown_pct_spec [(100 : ℚ), 90]
    (by
      intro i hi
      simp only [List.length_cons, List.length_nil] at hi
      interval_cases i <;> norm_num [peak, cumMaxAux])
    1 (by decide)

/-- Claim C2: for every equity sequence of length ≥ 1, the running peak has
the same length, is non-decreasing, dominates the equity pointwise, and
starts at `E[0]`. -/
theorem C2_peak_spec (E : List ℚ) (h : 1 ≤ E.length) :
    (peak E).length = E.length ∧
    (∀ i j, i ≤ j → j < E.length → (peak E).getD i 0 ≤ (peak E).getD j 0) ∧
    (∀ i, i < E.length → E.getD i 0 ≤ (peak E).getD i 0) ∧
    (peak E).getD 0 0 = E.getD 0 0 :=
  ⟨peak_length E, fun i j hij hj => peak_mono E i j hij hj,
    fun i hi => peak_ge E i hi, peak_zero E h⟩

theorem C2_peak_spec_witness :
    (peak [(3 : ℚ), 1, 4]).length = ([(3 : ℚ), 1, 4]).length ∧
    (∀ i j, i ≤ j → j < ([(3 : ℚ), 1, 4]).length →
      (peak [(3 : ℚ), 1, 4]).getD i 0 ≤ (peak [(3 : ℚ), 1, 4]).getD j 0) ∧
    (∀ i, i < ([(3 : ℚ), 1, 4]).length →
      ([(3 : ℚ), 1, 4]).getD i 0 ≤ (peak [(3 : ℚ), 1, 4]).getD i 0) ∧
    (peak [(3 : ℚ), 1, 4]).getD 0 0 = ([(3 : ℚ), 1, 4]).getD 0 0 :=
  C2_peak_spec [(3 : ℚ), 1, 4] (by decide)

/-- Claim C3: the two concrete drawdown scenarios of the spec.  On
`E = [100,110,90,95,120]` the computation yields the stated `P` and `D`, the
exact `D%` values `-200/11` and `-150/11`, whose roundings to two decimal
places are `-18.18 = -909/50` and `-13.64 = -341/25`; on `E = [50]` all
derived series are as stated. -/
theorem C3_scenarios :
    peak [(100 : ℚ), 110, 90, 95, 120] = [100, 110, 110, 110, 120] ∧
    drawdown [(100 : ℚ), 110, 90, 95, 120] = [0, 0, -20, -15, 0] ∧
    drawdown_pct [(100 : ℚ), 110, 90, 95, 120] = [0, 0, -200/11, -150/11, 0] ∧
    (drawdown_pct [(100 : ℚ), 110, 90, 95, 120]).map round2 =
      [0, 0, -909/50, -341/25, 0] ∧
    peak [(50 : ℚ)] = [50] ∧
    drawdown [(50 : ℚ)] = [0] ∧
    drawdown_pct [(50 : ℚ)] = [0] := by
  have hd : drawdown_pct [(100 : ℚ), 110, 90, 95, 120] =
      [0, 0, -200/11, -150/11, 0] := by
    norm_num [drawdown_pct, drawdown, peak, cumMaxAux]
  have h1 : round2 (-200/11 : ℚ) = -909/50 := by
    unfold round2
    norm_num [round_eq]
  have h2 : round2 (-150/11 : ℚ) = -341/25 := by
    unfold round2
    norm_num [round_eq]
  have h0 : round2 (0 : ℚ) = 0 := by
    unfold round2
    norm_num [round_eq]
  refine ⟨by norm_num [peak, cumMaxAux], by norm_num [drawdown, peak, cumMaxAux],
    hd, ?_, by norm_num [peak, cumMaxAux], by norm_num [drawdown, peak, cumMaxAux],
    by norm_num [drawdown_pct, drawdown, peak, cumMaxAux]⟩
  rw [hd]
  simp [h0, h1, h2]

/-- Claim C4: the division in `drawdown_pct` is unguarded.  On `E = [0]` the
running peak is `0` at index 0 and the checked computation reports a zero
divisor (`none`, i.e. the float computation produces a non-finite value); on
`E = [-10,-20]` the division proceeds with a negative peak with no guard,
returning finite values. -/
theorem C4_division_unguarded :
    (peak [(0 : ℚ)]).getD 0 0 = 0 ∧
    drawdown_pct_checked [(0 : ℚ)] = none ∧
    drawdown_pct_checked [(-10 : ℚ), -20] = some [0, 100] := by
  norm_num [drawdown_pct_checked, drawdown, peak, cumMaxAux, divChecked, optionList]

/-- Claim C5: when the loaded CSV has `timestamp`, `equity` and `mid_price`
columns but no `position` column, the plotter script terminates with the
missing-column error for `position` and the `show` call is never reached. -/
theorem C5_missing_position (argv : List String) (fs : String → Option Frame)
    (df : Frame) (ts eqv mp : List Val)
    (hargv : 3 ≤ argv.length)
    (hfs : fs (argv.getD 1 "") = some df)
    (hts : getCol df "timestamp" = some ts)
    (heq : getCol df "equity" = some eqv)
    (hmp : getCol df "mid_price" = some mp)
    (hpos : getCol df "position" = none) :
    (runPlotRecorder true [] argv fs).2 = some (RErr.missingColumn "position") ∧
    REff.showFig ∉ (runPlotRecorder true [] argv fs).1 := by
  have hlt : ¬ (argv.length < 3) := not_lt.mpr hargv
  have hT : getCol (setCol df "timestamp" (ts.map to_datetime)) "timestamp"
      = some (ts.map to_datetime) := getCol_setCol_self df "timestamp" _
  have hE : getCol (setCol df "timestamp" (ts.map to_datetime)) "equity"
      = some eqv := by
    rw [getCol_setCol_ne df "timestamp" "equity" _ (by decide)]
    exact heq
  have hM : getCol (setCol df "timestamp" (ts.map to_datetime)) "mid_price"
      = some mp := by
    rw [getCol_setCol_ne df "timestamp" "mid_price" _ (by decide)]
    exact hmp
  have hP : getCol (setCol df "timestamp" (ts.map to_datetime)) "position"
      = none := by
    rw [getCol_setCol_ne df "timestamp" "position" _ (by decide)]
    exact hpos
  have hfs2 : fs (argv[1]?.getD "") = some df := by simpa using hfs
  simp [runPlotRecorder, plotStep, hlt, hfs2, hts, hT, hE, hM, hP]

theorem C5_missing_position_witness :
    (runPlotRecorder true [] ["plot_recorder.py", "run.csv", "BTC"]
      (fun n => if n = "run.csv" then
        some [("timestamp", [Val.num 0]), ("equity", [Val.num 1]),
          ("mid_price", [Val.num 2])] else none)).2
      = some (RErr.missingColumn "position") ∧
    REff.showFig ∉ (runPlotRecorder true [] ["plot_recorder.py", "run.csv", "BTC"]
      (fun n => if n = "run.csv" then
        some [("timestamp", [Val.num 0]), ("equity", [Val.num 1]),
          ("mid_price", [Val.num 2])] else none)).1 :=
  C5_missing_position ["plot_recorder.py", "run.csv", "BTC"]
    (fun n => if n = "run.csv" then
      some [("timestamp", [Val.num 0]), ("equity", [Val.num 1]),
        ("mid_price", [Val.num 2])] else none)
    [("timestamp", [Val.num 0]), ("equity", [Val.num 1]), ("mid_price", [Val.num 2])]
    [Val.num 0] [Val.num 1] [Val.num 2]
    (by decide) (by simp) (by simp [getCol]) (by simp [getCol]) (by simp [getCol])
    (by simp [getCol])

/-- Claim C6: with fewer than three entries in `sys.argv` (program name plus
fewer than two arguments), the plotter prints the usage line, exits with a
nonzero status, and reads no file. -/
theorem C6_usage_exit (argv : List String) (fs : String → Option Frame)
    (h : argv.length < 3) :
    (runPlotRecorder true [] argv fs).1 = [REff.print usageMsg] ∧
    (runPlotRecorder true [] argv fs).2 = some RErr.usage ∧
    exitCode (runPlotRecorder true [] argv fs).2 ≠ 0 ∧
    ∀ f, REff.readCsv f ∉ (runPlotRecorder true [] argv fs).1 := by
  simp [runPlotRecorder, h, exitCode]

theorem C6_usage_exit_witness :
    (runPlotRecorder true [] ["plot_recorder.py", "run.csv"] (fun _ => none)).1
      = [REff.print usageMsg] ∧
    (runPlotRecorder true [] ["plot_recorder.py", "run.csv"] (fun _ => none)).2
      = some RErr.usage ∧
    exitCode (runPlotRecorder true [] ["plot_recorder.py", "run.csv"]
      (fun _ => none)).2 ≠ 0 ∧
    ∀ f, REff.readCsv f ∉
      (runPlotRecorder true [] ["plot_recorder.py", "run.csv"] (fun _ => none)).1 :=
  C6_usage_exit ["plot_recorder.py", "run.csv"] (fun _ => none) (by decide)

/-- Claim C7: `plot_equity` on sequences of different lengths stops with the
length-mismatch error raised by the plot call and never reaches `show`. -/
theorem C7_plot_equity_mismatch (x y : List ℚ) (xl yl tl : String) (lg : Bool)
    (h : x.length ≠ y.length) :
    (plot_equity x y xl yl tl lg).2 =
      some (PErr.lengthMismatch x.length y.length) ∧
    PEff.showFig ∉ (plot_equity x y xl yl tl lg).1 := by
  simp [plot_equity, h]

theorem C7_plot_equity_mismatch_witness :
    (plot_equity [(1 : ℚ), 2, 3, 4, 5] [1, 2, 3, 4] "x" "y" "t" false).2 =
      some (PErr.lengthMismatch ([(1 : ℚ), 2, 3, 4, 5]).length
        ([(1 : ℚ), 2, 3, 4]).length) ∧
    PEff.showFig ∉ (plot_equity [(1 : ℚ), 2, 3, 4, 5] [1, 2, 3, 4] "x" "y" "t" false).1 :=
  C7_plot_equity_mismatch [(1 : ℚ), 2, 3, 4, 5] [1, 2, 3, 4] "x" "y" "t" false
    (by decide)

/-- Claim C8: the drawdown computation is a pure, deterministic function of
the equity input: two runs on the same equity sequence — whatever the other
parameters of `plot_equity_dd` are — produce identical peak, drawdown and
drawdown-percent series. -/
theorem C8_dd_pure (E₁ E₂ t₁ t₂ : List ℚ) (xl₁ yl₁ tl₁ xl₂ yl₂ tl₂ : String)
    (b₁ b₂ : ℚ) (lg₁ lg₂ : Bool) (h : E₁ = E₂) :
    ddCompute E₁ = ddCompute E₂ ∧
    (plot_equity_dd t₁ E₁ xl₁ yl₁ tl₁ b₁ lg₁).ddY =
      (plot_equity_dd t₂ E₂ xl₂ yl₂ tl₂ b₂ lg₂).ddY := by
  subst h
  exact ⟨rfl, rfl⟩

theorem C8_dd_pure_witness :
    ddCompute [(1 : ℚ), 2] = ddCompute [(1 : ℚ), 2] ∧
    (plot_equity_dd [(0 : ℚ), 1] [(1 : ℚ), 2] "a" "b" "c" 0 true).ddY =
      (plot_equity_dd [(3 : ℚ), 4] [(1 : ℚ), 2] "d" "e" "f" 1 false).ddY :=
  C8_dd_pure [(1 : ℚ), 2] [(1 : ℚ), 2] [(0 : ℚ), 1] [(3 : ℚ), 4]
    "a" "b" "c" "d" "e" "f" 0 1 true false rfl

/-- Claim C9: in a successful plotter run the trace is exactly the CSV read,
the figure, the four plot calls whose y-series are the `equity`, `mid_price`
and `position` columns exactly as read and whose x-series is the converted
timestamp column, the suptitle and the show; only the `timestamp` column of
the frame is replaced (by its datetime conversion) and no file is ever
written. -/
theorem C9_timestamp_only_conversion (argv : List String)
    (fs : String → Option Frame) (df : Frame) (ts eqv mp pos : List Val)
    (hargv : 3 ≤ argv.length)
    (hfs : fs (argv.getD 1 "") = some df)
    (hts : getCol df "timestamp" = some ts)
    (heq : getCol df "equity" = some eqv)
    (hmp : getCol df "mid_price" = some mp)
    (hpos : getCol df "position" = some pos) :
    runPlotRecorder true [] argv fs =
      ([REff.readCsv (argv.getD 1 ""), REff.figure,
        REff.plotLine 1 (ts.map to_datetime) eqv "Equity",
        REff.plotLine 1 (ts.map to_datetime) mp "Price",
        REff.plotLine 2 (ts.map to_datetime) pos "Position",
        REff.plotLine 2 (ts.map to_datetime) mp "Price",
        REff.suptitle ("Asset " ++ argv.getD 2 "" ++ " Equity and Position Over Time"),
        REff.showFig], none) ∧
    (∀ c, c ≠ "timestamp" →
      getCol (setCol df "timestamp" (ts.map to_datetime)) c = getCol df c) ∧
    getCol (setCol df "timestamp" (ts.map to_datetime)) "timestamp" =
      some (ts.map to_datetime) ∧
    (∀ f, REff.writeFile f ∉ (runPlotRecorder true [] argv fs).1) := by
  have hlt : ¬ (argv.length < 3) := not_lt.mpr hargv
  have hT : getCol (setCol df "timestamp" (ts.map to_datetime)) "timestamp"
      = some (ts.map to_datetime) := getCol_setCol_self df "timestamp" _
  have hE : getCol (setCol df "timestamp" (ts.map to_datetime)) "equity"
      = some eqv := by
    rw [getCol_setCol_ne df "timestamp" "equity" _ (by decide)]
    exact heq
  have hM : getCol (setCol df "timestamp" (ts.map to_datetime)) "mid_price"
      = some mp := by
    rw [getCol_setCol_ne df "timestamp" "mid_price" _ (by decide)]
    exact hmp
  have hP : getCol (setCol df "timestamp" (ts.map to_datetime)) "position"
      = some pos := by
    rw [getCol_setCol_ne df "timestamp" "position" _ (by decide)]
    exact hpos
  have hrun : runPlotRecorder true [] argv fs =
      ([REff.readCsv (argv.getD 1 ""), REff.figure,
        REff.plotLine 1 (ts.map to_datetime) eqv "Equity",
        REff.plotLine 1 (ts.map to_datetime) mp "Price",
        REff.plotLine 2 (ts.map to_datetime) pos "Position",
        REff.plotLine 2 (ts.map to_datetime) mp "Price",
        REff.suptitle ("Asset " ++ argv.getD 2 "" ++ " Equity and Position Over Time"),
        REff.showFig], none) := by
    have hfs2 : fs (argv[1]?.getD "") = some df := by simpa using hfs
    simp [runPlotRecorder, plotStep, hlt, hfs2, hts, hT, hE, hM, hP]
  refine ⟨hrun, ?_, hT, ?_⟩
  · intro c hc
    exact getCol_setCol_ne df "timestamp" c _ (fun h => hc h.symm)
  · intro f
    rw [hrun]
    simp

theorem C9_timestamp_only_conversion_witness :
    runPlotRecorder true [] ["plot_recorder.py", "run.csv", "BTC"]
      (fun n => if n = "run.csv" then
        some [("timestamp", [Val.num 0]), ("equity", [Val.num 1]),
          ("mid_price", [Val.num 2]), ("position", [Val.num 3])] else none) =
      ([REff.readCsv (["plot_recorder.py", "run.csv", "BTC"].getD 1 ""), REff.figure,
        REff.plotLine 1 ([Val.num 0].map to_datetime) [Val.num 1] "Equity",
        REff.plotLine 1 ([Val.num 0].map to_datetime) [Val.num 2] "Price",
        REff.plotLine 2 ([Val.num 0].map to_datetime) [Val.num 3] "Position",
        REff.plotLine 2 ([Val.num 0].map to_datetime) [Val.num 2] "Price",
        REff.suptitle ("Asset " ++ ["plot_recorder.py", "run.csv", "BTC"].getD 2 ""
          ++ " Equity and Position Over Time"),
        REff.showFig], none) ∧
    (∀ c, c ≠ "timestamp" →
      getCol (setCol [("timestamp", [Val.num 0]), ("equity", [Val.num 1]),
        ("mid_price", [Val.num 2]), ("position", [Val.num 3])] "timestamp"
        ([Val.num 0].map to_datetime)) c =
      getCol [("timestamp", [Val.num 0]), ("equity", [Val.num 1]),
        ("mid_price", [Val.num 2]), ("position", [Val.num 3])] c) ∧
    getCol (setCol [("timestamp", [Val.num 0]), ("equity", [Val.num 1]),
      ("mid_price", [Val.num 2]), ("position", [Val.num 3])] "timestamp"
      ([Val.num 0].map to_datetime)) "timestamp" = some ([Val.num 0].map to_datetime) ∧
    (∀ f, REff.writeFile f ∉ (runPlotRecorder true []
      ["plot_recorder.py", "run.csv", "BTC"]
      (fun n => if n = "run.csv" then
        some [("timestamp", [Val.num 0]), ("equity", [Val.num 1]),
          ("mid_price", [Val.num 2]), ("position", [Val.num 3])] else none)).1) :=
  C9_timestamp_only_conversion ["plot_recorder.py", "run.csv", "BTC"]
    (fun n => if n = "run.csv" then
      some [("timestamp", [Val.num 0]), ("equity", [Val.num 1]),
        ("mid_price", [Val.num 2]), ("position", [Val.num 3])] else none)
    [("timestamp", [Val.num 0]), ("equity", [Val.num 1]),
      ("mid_price", [Val.num 2]), ("position", [Val.num 3])]
    [Val.num 0] [Val.num 1] [Val.num 2] [Val.num 3]
    (by decide) (by simp) (by simp [getCol]) (by simp [getCol]) (by simp [getCol])
    (by simp [getCol])

/-- Claim C10: the chart built by `plot_equity_dd` is independent of its
`xlabel`, `ylabel` and `title` parameters, and its axis labels and title are
the fixed strings set in the body. -/
theorem C10_labels_fixed (time equity : List ℚ) (xl yl tl xl' yl' tl' : String)
    (b : ℚ) (lg : Bool) :
    plot_equity_dd time equity xl yl tl b lg =
      plot_equity_dd time equity xl' yl' tl' b lg ∧
    (plot_equity_dd time equity xl yl tl b lg).ax1Ylabel = "Equity" ∧
    (plot_equity_dd time equity xl yl tl b lg).ax2Ylabel = "Drawdown (%)" ∧
    (plot_equity_dd time equity xl yl tl b lg).figTitle =
      "Equity Curve with Drawdown (%) on Right Axis" :=
  ⟨rfl, rfl, rfl, rfl⟩
